import Mathlib

/-!
Shallow embedding of the task-lifecycle core of the nomad-driver-wasmtime
plugin (driver.go, handle.go, config.go), for verifying its natural-language
specification.

Conventions of the embedding:
* Go machine integers become `Int`, timestamps become `Nat` (nanoseconds).
* Go `nil`-able pointers become `Option`.
* Fallible external calls (msgpack decoding, executor reattachment, the
  executor wait call, the plugin client state) are parameters of the
  functions that perform them, since the collaborators behind them are
  external black boxes (spec section 6).
* Mutation of the driver state is explicit state passing: each lifecycle
  operation takes the task store and returns the (possibly updated) store.
  Where the source spawns a supervisor goroutine (`go h.run()`), the model
  returns a `Bool` recording that a supervisor activity was started.
-/

set_option autoImplicit false

/-- fingerprintPeriod (driver.go): `30 * time.Second`, in nanoseconds. -/
def fingerprintPeriod : Nat := 30 * 1000000000

/-- taskHandleVersion (driver.go). -/
def taskHandleVersion : Nat := 1

/-- drivers.TaskState: the three states the driver uses
(TaskStateRunning, TaskStateExited, TaskStateUnknown). -/
inductive TaskState where
  | running
  | exited
  | unknown
deriving DecidableEq, Repr

/-- drivers.ExitResult: exit code, signal, and an optional error cause.
`Err` is `none` for a Go `nil` error. -/
structure ExitResult where
  ExitCode : Int
  Signal : Int
  Err : Option String
deriving DecidableEq, Repr

/-- executor.ProcessState as consumed by this driver: exit code, signal and
completion time (`ps.Time`). -/
structure ProcessState where
  ExitCode : Int
  Signal : Int
  Time : Nat
deriving DecidableEq, Repr

/-- CraneLiftOptions (config.go). -/
structure CraneLiftOptions where
  DebugVerifier : Bool
  OptLevel : Nat
  NANCanonicalization : Bool
deriving DecidableEq, Repr

/-- WasmTimeCompiler (config.go). -/
structure WasmTimeCompiler where
  Strategy : String
  craneLiftOptions : CraneLiftOptions
deriving DecidableEq, Repr

/-- TaskConfig (config.go), the decoded per-task driver configuration.
The `file` field is the required workload binary path: it is declared in
taskConfigSpec (config.go line 72) and read by StartTask (driver.go
line 237). -/
structure TaskConfig where
  Compiler : WasmTimeCompiler
  Profiler : String
  file : String
deriving DecidableEq, Repr

/-- drivers.TaskConfig, the orchestrator-provided task descriptor.
`driverConfig` carries the outcome of `DecodeDriverConfig`: the raw encoded
driver config either decodes to a `TaskConfig` or fails with an error. -/
structure DriverTaskConfig where
  ID : String
  Name : String
  driverConfig : Except String TaskConfig
deriving Repr

/-- cfg.DecodeDriverConfig(&driverConfig). -/
def DriverTaskConfig.DecodeDriverConfig (cfg : DriverTaskConfig) :
    Except String TaskConfig :=
  cfg.driverConfig

/-- TaskHandle (handle.go): the in-memory state machine record for one
workload. The executor and plugin-client references are external
collaborators; their observable answers enter as parameters of the
operations below. CPU stats fields are resource accounting internals,
out of scope (spec section 1). -/
structure TaskHandle where
  taskConfig : DriverTaskConfig
  procState : TaskState
  startedAt : Nat
  completedAt : Nat
  exitResult : Option ExitResult
  pid : Int
deriving Repr

/-- drivers.TaskStatus as built by TaskHandle.TaskStatus (handle.go). -/
structure TaskStatus where
  ID : String
  Name : String
  State : TaskState
  StartedAt : Nat
  CompletedAt : Nat
  ExitResult : Option ExitResult
  pidAttribute : Int
deriving Repr

/-- TaskHandle.TaskStatus (handle.go lines 43-58): a snapshot of the
handle's fields under the read lock. -/
def TaskHandle.TaskStatus (h : TaskHandle) : TaskStatus :=
  { ID := h.taskConfig.ID
    Name := h.taskConfig.Name
    State := h.procState
    StartedAt := h.startedAt
    CompletedAt := h.completedAt
    ExitResult := h.exitResult
    pidAttribute := h.pid }

/-- TaskHandle.isRunning (handle.go lines 60-64). -/
def TaskHandle.isRunning (h : TaskHandle) : Bool :=
  h.procState = TaskState.running

/-- TaskHandle.run (handle.go lines 66-88): the supervisor activity.
`waitOutcome` is the result of the executor wait call
`h.exec.Wait(context.Background())`; `now` is `time.Now()` for the
failure branch. -/
def TaskHandle.run (h : TaskHandle) (waitOutcome : Except String ProcessState)
    (now : Nat) : TaskHandle :=
  let h1 := match h.exitResult with
    | none => { h with exitResult := some { ExitCode := 0, Signal := 0, Err := none } }
    | some _ => h
  match waitOutcome with
  | Except.error e =>
    let r := h1.exitResult.getD { ExitCode := 0, Signal := 0, Err := none }
    { h1 with
      exitResult := some { r with Err := some e }
      procState := TaskState.unknown
      completedAt := now }
  | Except.ok ps =>
    let r := h1.exitResult.getD { ExitCode := 0, Signal := 0, Err := none }
    { h1 with
      procState := TaskState.exited
      exitResult := some { r with ExitCode := ps.ExitCode, Signal := ps.Signal }
      completedAt := ps.Time }

/-- Modelled from the spec: the Task Store. Its source file (state.go with
`newTaskStore`, `Get`, `Set`, `Delete`, used throughout driver.go) is absent
from the sources; spec section 4.1 gives its contract: a concurrent registry
mapping workload identifier to Handle with `get(id) -> Handle|absent`,
`set(id, handle)`, `delete(id)`, at most one Handle per id. We model it as a
finite partial map. -/
abbrev TaskStore := String → Option TaskHandle

/-- Modelled from the spec: taskStore.Get. -/
def TaskStore.get (ts : TaskStore) (id : String) : Option TaskHandle :=
  ts id

/-- Modelled from the spec: taskStore.Set. -/
def TaskStore.set (ts : TaskStore) (id : String) (h : TaskHandle) : TaskStore :=
  fun k => if k = id then some h else ts k

/-- Modelled from the spec: taskStore.Delete. -/
def TaskStore.delete (ts : TaskStore) (id : String) : TaskStore :=
  fun k => if k = id then none else ts k

/-- Modelled from the spec: newTaskStore. -/
def newTaskStore : TaskStore :=
  fun _ => none

/-- drivers.ErrTaskNotFound. -/
def ErrTaskNotFound : String := "task not found for given id"

/-- pstructs.ReattachConfig: opaque descriptor for reconnecting to the
worker-process controller's RPC endpoint. Its fields are external; only
presence matters to this driver. -/
structure ReattachConfig where
  Pid : Int
deriving Repr

/-- TaskState struct (driver.go lines 33-51): the persisted task state
payload encoded into the drivers.TaskHandle. Named PersistedTaskState here
because the name TaskState is taken by the state enum. -/
structure PersistedTaskState where
  reattachConfig : Option ReattachConfig
  taskConfig : DriverTaskConfig
  StartedAt : Nat
  Pid : Int
deriving Repr

/-- drivers.TaskHandle: the serializable handle exchanged with the Nomad
client. `driverState` carries the outcome of `GetDriverState`: decoding the
msgpack DriverState either yields the PersistedTaskState or fails. -/
structure NomadTaskHandle where
  Version : Nat
  Config : DriverTaskConfig
  driverState : Except String PersistedTaskState
deriving Repr

/-- handle.GetDriverState(&taskState). -/
def NomadTaskHandle.GetDriverState (h : NomadTaskHandle) :
    Except String PersistedTaskState :=
  h.driverState

/-- Driver.StartTask (driver.go lines 222-259). Returns the result
(a drivers.TaskHandle on success), the task store after the call, and
whether a supervisor activity was started. The source's TODO body performs
no insertion and starts no supervisor: after the duplicate-id check, the
driver-config decode and the `file` requirement check, it returns the fresh
handle without ever calling `d.tasks.Set` or `go h.run()`. -/
def StartTask (tasks : TaskStore) (cfg : DriverTaskConfig) :
    Except String NomadTaskHandle × TaskStore × Bool :=
  if (tasks.get cfg.ID).isSome then
    (Except.error ("task with ID \"" ++ cfg.ID ++ "\" already started"), tasks, false)
  else
    match cfg.DecodeDriverConfig with
    | Except.error e =>
      (Except.error ("failed to decode driver config: " ++ e), tasks, false)
    | Except.ok driverConfig =>
      let handle : NomadTaskHandle :=
        { Version := taskHandleVersion
          Config := cfg
          driverState := Except.error "no driver state" }
      if driverConfig.file = "" then
        (Except.error "file is required", tasks, false)
      else
        (Except.ok handle, tasks, false)

/-- Outcomes of the two fallible external calls RecoverTask performs after
decoding: `pstructs.ReattachConfigToGoPlugin` and
`executor.ReattachToExecutor`. `none` means the call succeeded. -/
structure RecoverEnv where
  reattachConfigErr : Option String
  reattachErr : Option String
deriving Repr

/-- The TaskHandle literal RecoverTask constructs (driver.go lines 298-304):
state Running, the persisted start time, and a fresh non-nil empty
ExitResult (`&drivers.ExitResult{}`). -/
def recoveredHandle (taskState : PersistedTaskState) : TaskHandle :=
  { taskConfig := taskState.taskConfig
    procState := TaskState.running
    startedAt := taskState.StartedAt
    completedAt := 0
    exitResult := some { ExitCode := 0, Signal := 0, Err := none }
    pid := 0 }

/-- Driver.RecoverTask (driver.go lines 261-310). Returns the result, the
task store after the call, and whether a supervisor activity (`go h.run()`)
was started. -/
def RecoverTask (env : RecoverEnv) (tasks : TaskStore)
    (handle : Option NomadTaskHandle) :
    Except String Unit × TaskStore × Bool :=
  match handle with
  | none => (Except.error "error: handle cannot be nil", tasks, false)
  | some handle =>
    if (tasks.get handle.Config.ID).isSome then
      (Except.ok (), tasks, false)
    else
      match handle.GetDriverState with
      | Except.error e =>
        (Except.error ("failed to decode task state from handle: " ++ e),
          tasks, false)
      | Except.ok taskState =>
        match taskState.taskConfig.DecodeDriverConfig with
        | Except.error e =>
          (Except.error ("failed to decode driver config: " ++ e), tasks, false)
        | Except.ok _ =>
          match env.reattachConfigErr with
          | some e =>
            (Except.error
              ("failed to build ReattachConfig from taskConfig state: " ++ e),
              tasks, false)
          | none =>
            match env.reattachErr with
            | some e =>
              (Except.error ("failed to reattach to executor: " ++ e),
                tasks, false)
            | none =>
              (Except.ok (),
                tasks.set taskState.taskConfig.ID (recoveredHandle taskState),
                true)

/-- Driver.WaitTask (driver.go lines 312-322): looks up the handle and, when
present, spawns a handleWait goroutine with a fresh channel. The returned
Bool records whether such a subscriber goroutine was spawned. -/
def WaitTask (tasks : TaskStore) (taskID : String) :
    Except String Unit × TaskStore × Bool :=
  match tasks.get taskID with
  | none => (Except.error ErrTaskNotFound, tasks, false)
  | some _ => (Except.ok (), tasks, true)

/-- Driver.handleWait (driver.go lines 324-348): the result the goroutine
computes and then repeatedly delivers. `freshWait` is the outcome of
`handle.exec.Wait(ctx)` — a wait call issued anew by this goroutine. The
`handle` argument mirrors the source parameter; the source reads only
`handle.exec` from it, never its cached exitResult. -/
def handleWaitResult (handle : TaskHandle)
    (freshWait : Except String ProcessState) : ExitResult :=
  match freshWait with
  | Except.error e =>
    { ExitCode := 0, Signal := 0
      Err := some ("executor: error waiting on process: " ++ e) }
  | Except.ok ps => { ExitCode := ps.ExitCode, Signal := ps.Signal, Err := none }

/-- One iteration outcome of handleWait's delivery loop (driver.go lines
350-358): the caller context fires, the driver root context fires, or a
subscriber receives from the channel. -/
inductive WaitEvent where
  | callerDone
  | driverDone
  | recv
deriving DecidableEq, Repr

/-- handleWait's delivery loop: given the sequence of select outcomes,
the list of results delivered to receivers. The loop returns (and the
channel closes) at the first cancellation; each receive re-delivers the
same computed result. -/
def waitDeliveryLoop (result : ExitResult) : List WaitEvent → List ExitResult
  | [] => []
  | WaitEvent.callerDone :: _ => []
  | WaitEvent.driverDone :: _ => []
  | WaitEvent.recv :: rest => result :: waitDeliveryLoop result rest

/-- Driver.StopTask (driver.go lines 361-385). `shutdownErr` is the outcome
of `handle.exec.Shutdown(signal, timeout)`; `exited` is what
`handle.pluginClient.Exited()` reports. -/
def StopTask (tasks : TaskStore) (taskID : String)
    (shutdownErr : Option String) (exited : Bool) :
    Except String Unit × TaskStore :=
  match tasks.get taskID with
  | none => (Except.error ErrTaskNotFound, tasks)
  | some _ =>
    match shutdownErr with
    | some e =>
      if exited then (Except.ok (), tasks)
      else (Except.error ("executor Shutdown failed: " ++ e), tasks)
    | none => (Except.ok (), tasks)

/-- Driver.DestroyTask (driver.go lines 387-416). The executor shutdown and
plugin-client kill in the non-exited branch only log on failure and do not
affect the result or the store, so they are not modelled. -/
def DestroyTask (tasks : TaskStore) (taskID : String) (force : Bool) :
    Except String Unit × TaskStore :=
  match tasks.get taskID with
  | none => (Except.error ErrTaskNotFound, tasks)
  | some handle =>
    if handle.isRunning && !force then
      (Except.error "cannot destroy running task", tasks)
    else
      (Except.ok (), tasks.delete taskID)

/-- Driver.InspectTask (driver.go lines 418-426). -/
def InspectTask (tasks : TaskStore) (taskID : String) :
    Except String TaskStatus × TaskStore :=
  match tasks.get taskID with
  | none => (Except.error ErrTaskNotFound, tasks)
  | some handle => (Except.ok handle.TaskStatus, tasks)

/-- Driver.SignalTask (driver.go lines 451-472): a lookup followed by a
signal forward to the executor (an external call that does not touch the
store); unknown signal names fall back to SIGINT with a warning rather than
failing. -/
def SignalTask (tasks : TaskStore) (taskID : String) (signal : String) :
    Except String Unit × TaskStore :=
  match tasks.get taskID with
  | none => (Except.error ErrTaskNotFound, tasks)
  | some _ => (Except.ok (), tasks)

/-- Driver.ExecTask (driver.go lines 474-479): always unsupported. -/
def ExecTask (tasks : TaskStore) (taskID : String) (cmd : List String) :
    Except String Unit × TaskStore :=
  (Except.error "wasmtime driver does not support exec", tasks)

/-- drivers.HealthState. -/
inductive HealthState where
  | healthy
  | unhealthy
  | undetected
deriving DecidableEq, Repr

/-- drivers.Fingerprint as built by this driver: boolean node attributes,
health, and a description. -/
structure Fingerprint where
  Attributes : List (String × Bool)
  Health : HealthState
  HealthDescription : String
deriving DecidableEq, Repr

/-- Driver.buildFingerprint (driver.go lines 185-220): health Undetected,
description "disabled", one attribute driver.wasmtime = true. -/
def buildFingerprint : Fingerprint :=
  { Attributes := [("driver.wasmtime", true)]
    Health := HealthState.undetected
    HealthDescription := "disabled" }

/-- One iteration outcome of handleFingerprint's select (driver.go lines
170-182): the caller context fires, the driver root context fires, or the
timer fires. -/
inductive FpEvent where
  | callerDone
  | driverDone
  | tick
deriving DecidableEq, Repr

/-- Whether a select outcome is a timer tick. -/
def FpEvent.isTick : FpEvent → Bool
  | FpEvent.tick => true
  | _ => false

/-- The delay the timer is armed with before the n-th tick
(driver.go lines 169 and 179): `time.NewTimer(0)` for the first,
`ticker.Reset(fingerprintPeriod)` before every subsequent one. -/
def fingerprintTimerDelay : Nat → Nat
  | 0 => 0
  | _ + 1 => fingerprintPeriod

/-- The instant of the n-th fingerprint emission under the timer delays
above: the sum of the first n+1 delays. -/
def fingerprintEmissionTime : Nat → Nat
  | 0 => fingerprintTimerDelay 0
  | n + 1 => fingerprintEmissionTime n + fingerprintTimerDelay (n + 1)

/-- Driver.handleFingerprint (driver.go lines 164-183): given the sequence
of select outcomes, the fingerprints sent and whether the deferred
`close(ch)` has run. The loop returns — closing the channel — at the first
cancellation event, be it the caller's or the driver root's; each tick sends
`buildFingerprint` and rearms the timer. -/
def handleFingerprint : List FpEvent → List Fingerprint × Bool
  | [] => ([], false)
  | FpEvent.callerDone :: _ => ([], true)
  | FpEvent.driverDone :: _ => ([], true)
  | FpEvent.tick :: rest =>
    let r := handleFingerprint rest
    (buildFingerprint :: r.1, r.2)

/-- Handles as the driver actually constructs and evolves them: RecoverTask
builds them (driver.go lines 298-304) and the supervisor `run` steps them;
StartTask's TODO body constructs no in-memory handle at all. -/
inductive ReachableHandle : TaskHandle → Prop
  | recovered (ts : PersistedTaskState) : ReachableHandle (recoveredHandle ts)
  | stepped (h : TaskHandle) (o : Except String ProcessState) (now : Nat) :
      ReachableHandle h → ReachableHandle (h.run o now)

/-- Concrete fixture: the default cranelift options (config.go defaults). -/
def craneOpts0 : CraneLiftOptions :=
  { DebugVerifier := false, OptLevel := 1, NANCanonicalization := false }

/-- Concrete fixture: a decoded task driver configuration. -/
def taskCfg0 : TaskConfig :=
  { Compiler := { Strategy := "auto", craneLiftOptions := craneOpts0 }
    Profiler := "none"
    file := "add.wasm" }

/-- Concrete fixture: a valid orchestrator task descriptor with id t1. -/
def cfg0 : DriverTaskConfig :=
  { ID := "t1", Name := "say-hi", driverConfig := Except.ok taskCfg0 }

/-- Concrete fixture: a persisted task state for t1. -/
def ts0 : PersistedTaskState :=
  { reattachConfig := some { Pid := 42 }
    taskConfig := cfg0
    StartedAt := 5
    Pid := 42 }

/-- Concrete fixture: a decodable serialized task handle for t1. -/
def nh0 : NomadTaskHandle :=
  { Version := taskHandleVersion, Config := cfg0, driverState := Except.ok ts0 }

/-- Concrete fixture: an environment in which both reattachment calls
succeed. -/
def env0 : RecoverEnv :=
  { reattachConfigErr := none, reattachErr := none }

/-- Concrete fixture: the running handle recovery builds for t1. -/
def h0 : TaskHandle := recoveredHandle ts0

/-- Concrete fixture: a handle whose worker has exited cleanly, with the
terminal result cached in `exitResult`. -/
def exitedHandle0 : TaskHandle :=
  { taskConfig := cfg0
    procState := TaskState.exited
    startedAt := 5
    completedAt := 9
    exitResult := some { ExitCode := 0, Signal := 0, Err := none }
    pid := 42 }

/-- Concrete fixture: a store holding the running handle under t1. -/
def store1 : TaskStore := newTaskStore.set "t1" h0

/-- Concrete fixture: a store holding the exited handle under t1. -/
def storeExited : TaskStore := newTaskStore.set "t1" exitedHandle0

/-- Helper: every result the handleWait delivery loop hands to a receiver is
the one result the goroutine computed. -/
theorem mem_waitDeliveryLoop (result r : ExitResult) (evs : List WaitEvent) :
    r ∈ waitDeliveryLoop result evs → r = result := by
  induction evs with
  | nil => intro hr; simp [waitDeliveryLoop] at hr
  | cons e rest ih =>
    intro hr
    cases e with
    | callerDone => simp [waitDeliveryLoop] at hr
    | driverDone => simp [waitDeliveryLoop] at hr
    | recv =>
      simp only [waitDeliveryLoop, List.mem_cons] at hr
      rcases hr with h | h
      · exact h
      · exact ih h

/-- Helper: the supervisor step always leaves a non-nil exitResult. -/
theorem run_exitResult_isSome (h : TaskHandle)
    (o : Except String ProcessState) (now : Nat) :
    ((h.run o now).exitResult).isSome = true := by
  cases o <;> cases hh : h.exitResult <;> simp [TaskHandle.run, hh]

/-- C1: the claim says a successful Start inserts a Running Handle into the
Task Store and starts its supervisor, so that an immediate Inspect reports
Running. The code (driver.go lines 222-259) diverges: its TODO body returns
success for a valid descriptor yet never calls `d.tasks.Set` and never
starts `h.run`, so the store is unchanged and an immediate Inspect fails
with ErrTaskNotFound. Evaluated here at the failing input: empty store,
descriptor id t1 with file "add.wasm". -/
theorem StartTask_success_leaves_store_empty :
    StartTask newTaskStore cfg0 =
      (Except.ok
        { Version := taskHandleVersion
          Config := cfg0
          driverState := Except.error "no driver state" },
        newTaskStore, false) ∧
    (InspectTask (StartTask newTaskStore cfg0).2.1 "t1").1 =
      Except.error ErrTaskNotFound := by
  constructor <;> rfl

/-- C2 counterexample: the claim says a Wait stream re-delivers the Handle's
cached terminal result rather than re-running the wait. On the code
(driver.go lines 324-358) the delivered result comes from a fresh
`handle.exec.Wait(ctx)` call: with a handle whose cached terminal result is
exitCode 0 and a fresh wait call answering exitCode 1, the subscriber
receives exitCode 1, not the cached exitCode 0. -/
theorem handleWait_not_cached_counterexample :
    exitedHandle0.exitResult =
      some { ExitCode := 0, Signal := 0, Err := none } ∧
    waitDeliveryLoop
        (handleWaitResult exitedHandle0
          (Except.ok { ExitCode := 1, Signal := 0, Time := 9 }))
        [WaitEvent.recv] =
      [{ ExitCode := 1, Signal := 0, Err := none }] ∧
    ({ ExitCode := 1, Signal := 0, Err := none } : ExitResult) ≠
      { ExitCode := 0, Signal := 0, Err := none } := by
  refine ⟨rfl, rfl, ?_⟩
  decide

/-- C2 amended: every Wait subscriber gets a goroutine that issues a fresh
wait call on the worker (re-running the wait rather than reading the
Handle's cached exitResult — the delivered result is independent of the
handle), and that one computed result is what every receive on that
subscriber's channel is handed, for as long as neither the subscriber's
context nor the driver's root context has fired. -/
theorem handleWait_delivers_fresh_wait_result (h₁ h₂ : TaskHandle)
    (o : Except String ProcessState) (evs : List WaitEvent) (r : ExitResult)
    (hr : r ∈ waitDeliveryLoop (handleWaitResult h₁ o) evs) :
    handleWaitResult h₁ o = handleWaitResult h₂ o ∧
    r = handleWaitResult h₁ o :=
  ⟨by cases o <;> rfl, mem_waitDeliveryLoop _ _ _ hr⟩

/-- Witness for the C2 amended theorem at a concrete subscriber history. -/
theorem handleWait_delivers_fresh_wait_result_witness :
    ({ ExitCode := 1, Signal := 0, Err := none } : ExitResult) ∈
      waitDeliveryLoop
        (handleWaitResult exitedHandle0
          (Except.ok { ExitCode := 1, Signal := 0, Time := 9 }))
        [WaitEvent.recv] ∧
    handleWaitResult exitedHandle0
        (Except.ok { ExitCode := 1, Signal := 0, Time := 9 }) =
      handleWaitResult h0 (Except.ok { ExitCode := 1, Signal := 0, Time := 9 }) := by
  have hm : ({ ExitCode := 1, Signal := 0, Err := none } : ExitResult) ∈
      waitDeliveryLoop
        (handleWaitResult exitedHandle0
          (Except.ok { ExitCode := 1, Signal := 0, Time := 9 }))
        [WaitEvent.recv] := by
    simp [waitDeliveryLoop, handleWaitResult]
  exact ⟨hm,
    (handleWait_delivers_fresh_wait_result exitedHandle0 h0
      (Except.ok { ExitCode := 1, Signal := 0, Time := 9 })
      [WaitEvent.recv] _ hm).1⟩

/-- C3 counterexample: the claim says exitResult is non-nil iff the state is
Exited or Unknown, so a Running handle has nil exitResult. The handle
RecoverTask inserts (driver.go lines 298-306) is Running with a non-nil
empty exitResult (`&drivers.ExitResult{}`): recovering t1 into an empty
store yields a stored handle with state Running and exitResult non-nil. -/
theorem recovered_running_handle_has_exitResult :
    ((RecoverTask env0 newTaskStore (some nh0)).2.1.get "t1").map
        (fun h => (h.procState, h.exitResult)) =
      some (TaskState.running,
        some { ExitCode := 0, Signal := 0, Err := none }) := by
  rfl

/-- C3 amended: for every handle the driver constructs (via recovery) and
evolves (via its supervisor), exitResult is non-nil in every state — so in
particular it is non-nil in the terminal states Exited and Unknown, but the
converse direction of the claimed equivalence fails: a Running handle also
carries a non-nil (empty) exitResult from construction. -/
theorem reachable_handle_exitResult_nonnil (h : TaskHandle)
    (hr : ReachableHandle h) :
    h.exitResult.isSome = true ∧
    ((h.procState = TaskState.exited ∨ h.procState = TaskState.unknown) →
      h.exitResult.isSome = true) := by
  have hsome : h.exitResult.isSome = true := by
    induction hr with
    | recovered ts => rfl
    | stepped h o now _ _ => exact run_exitResult_isSome h o now
  exact ⟨hsome, fun _ => hsome⟩

/-- Witness for the C3 amended theorem at the concrete recovered handle. -/
theorem reachable_handle_exitResult_nonnil_witness :
    (recoveredHandle ts0).exitResult.isSome = true :=
  (reachable_handle_exitResult_nonnil (recoveredHandle ts0)
    (ReachableHandle.recovered ts0)).1

/-- C10: RecoverTask called with a nil handle returns the error
"error: handle cannot be nil" before touching the handle or the store
(driver.go lines 262-265): the store is returned unchanged and no
supervisor is started. -/
theorem RecoverTask_nil_handle (env : RecoverEnv) (tasks : TaskStore) :
    RecoverTask env tasks none =
      (Except.error "error: handle cannot be nil", tasks, false) :=
  rfl

/-- C4: Recover is idempotent. If the id is already present RecoverTask
returns success immediately without reattaching (driver.go lines 267-269);
hence after any successful Recover of a persisted state the id is present,
and a second Recover with the same persisted state returns success, leaves
the store exactly as it was (so exactly the one Handle for that id remains)
and starts no second supervisor activity. The hypothesis `hwf` is the
well-formedness of the persisted payload from the data model (spec
section 3): the persisted task descriptor is the original one, so its id
agrees with the id of the handle that carries it. -/
theorem RecoverTask_idempotent (env env₂ : RecoverEnv)
    (tasks tasks₁ : TaskStore) (nh : NomadTaskHandle) (s₁ : Bool)
    (hwf : ∀ ts, nh.GetDriverState = Except.ok ts →
      ts.taskConfig.ID = nh.Config.ID)
    (hfirst : RecoverTask env tasks (some nh) = (Except.ok (), tasks₁, s₁)) :
    RecoverTask env₂ tasks₁ (some nh) = (Except.ok (), tasks₁, false) ∧
    (tasks₁.get nh.Config.ID).isSome = true := by
  by_cases hpre : (tasks.get nh.Config.ID).isSome = true
  · have hLHS : RecoverTask env tasks (some nh) = (Except.ok (), tasks, false) := by
      simp [RecoverTask, hpre]
    rw [hLHS] at hfirst
    obtain rfl : tasks₁ = tasks := (congrArg (fun p => p.2.1) hfirst).symm
    exact ⟨by simp [RecoverTask, hpre], hpre⟩
  · cases hds : nh.GetDriverState with
    | error e =>
      have hLHS : RecoverTask env tasks (some nh) =
          (Except.error ("failed to decode task state from handle: " ++ e),
            tasks, false) := by
        simp [RecoverTask, hpre, hds]
      rw [hLHS] at hfirst
      exact absurd (congrArg (fun p => p.1) hfirst) (by simp)
    | ok ts =>
      cases hdc : ts.taskConfig.DecodeDriverConfig with
      | error e =>
        have hLHS : RecoverTask env tasks (some nh) =
            (Except.error ("failed to decode driver config: " ++ e),
              tasks, false) := by
          simp [RecoverTask, hpre, hds, hdc]
        rw [hLHS] at hfirst
        exact absurd (congrArg (fun p => p.1) hfirst) (by simp)
      | ok dc =>
        cases hrc : env.reattachConfigErr with
        | some e =>
          have hLHS : RecoverTask env tasks (some nh) =
              (Except.error
                ("failed to build ReattachConfig from taskConfig state: " ++ e),
                tasks, false) := by
            simp [RecoverTask, hpre, hds, hdc, hrc]
          rw [hLHS] at hfirst
          exact absurd (congrArg (fun p => p.1) hfirst) (by simp)
        | none =>
          cases hre : env.reattachErr with
          | some e =>
            have hLHS : RecoverTask env tasks (some nh) =
                (Except.error ("failed to reattach to executor: " ++ e),
                  tasks, false) := by
              simp [RecoverTask, hpre, hds, hdc, hrc, hre]
            rw [hLHS] at hfirst
            exact absurd (congrArg (fun p => p.1) hfirst) (by simp)
          | none =>
            have hLHS : RecoverTask env tasks (some nh) =
                (Except.ok (),
                  tasks.set ts.taskConfig.ID (recoveredHandle ts), true) := by
              simp [RecoverTask, hpre, hds, hdc, hrc, hre]
            rw [hLHS] at hfirst
            obtain rfl : tasks₁ = tasks.set ts.taskConfig.ID (recoveredHandle ts) :=
              (congrArg (fun p => p.2.1) hfirst).symm
            have hid : ts.taskConfig.ID = nh.Config.ID := hwf ts hds
            have hget :
                (((tasks.set ts.taskConfig.ID (recoveredHandle ts)).get
                  nh.Config.ID)).isSome = true := by
              simp [TaskStore.get, TaskStore.set, hid]
            exact ⟨by simp [RecoverTask, hget], hget⟩

/-- Witness for C4 at a concrete recovery: recovering t1 into an empty
store succeeds, and a second Recover with the same persisted state returns
success, leaves the store as it was, and starts no second supervisor. -/
theorem RecoverTask_idempotent_witness :
    RecoverTask env0 (newTaskStore.set "t1" (recoveredHandle ts0)) (some nh0) =
      (Except.ok (), newTaskStore.set "t1" (recoveredHandle ts0), false) ∧
    (((newTaskStore.set "t1" (recoveredHandle ts0)).get "t1")).isSome = true :=
  RecoverTask_idempotent env0 env0 newTaskStore
    (newTaskStore.set "t1" (recoveredHandle ts0)) nh0 true
    (fun ts hts => by injection hts with h; subst h; rfl) rfl

/-- Helper: RecoverTask never removes a store entry — every id present
before the call is present after it, in every branch. -/
theorem RecoverTask_preserves (env : RecoverEnv) (tasks : TaskStore)
    (nh : Option NomadTaskHandle) (id : String)
    (hid : (tasks.get id).isSome = true) :
    (((RecoverTask env tasks nh).2.1).get id).isSome = true := by
  match nh with
  | none => exact hid
  | some nh =>
    by_cases hpre : (tasks.get nh.Config.ID).isSome = true
    · simpa [RecoverTask, hpre] using hid
    · cases hds : nh.GetDriverState with
      | error e => simpa [RecoverTask, hpre, hds] using hid
      | ok ts =>
        cases hdc : ts.taskConfig.DecodeDriverConfig with
        | error e => simpa [RecoverTask, hpre, hds, hdc] using hid
        | ok dc =>
          cases hrc : env.reattachConfigErr with
          | some e => simpa [RecoverTask, hpre, hds, hdc, hrc] using hid
          | none =>
            cases hre : env.reattachErr with
            | some e => simpa [RecoverTask, hpre, hds, hdc, hrc, hre] using hid
            | none =>
              have hLHS : RecoverTask env tasks (some nh) =
                  (Except.ok (),
                    tasks.set ts.taskConfig.ID (recoveredHandle ts), true) := by
                simp [RecoverTask, hpre, hds, hdc, hrc, hre]
              rw [hLHS]
              by_cases hk : id = ts.taskConfig.ID
              · simp [TaskStore.get, TaskStore.set, hk]
              · simp only [TaskStore.get, TaskStore.set, hk, if_false]
                exact hid

/-- C5: DestroyTask fails with ErrTaskNotFound on an absent id (store
unchanged), fails with "cannot destroy running task" when the handle is
running and force is false (store unchanged), and otherwise succeeds and
removes the id; and among the lifecycle operations, Destroy is the only one
that removes entries — Start, Stop, Wait, Inspect, Signal and Exec return
the store untouched and Recover only ever adds an entry. -/
theorem DestroyTask_contract :
    (∀ (tasks : TaskStore) (id : String) (force : Bool),
      tasks.get id = none →
      DestroyTask tasks id force = (Except.error ErrTaskNotFound, tasks)) ∧
    (∀ (tasks : TaskStore) (id : String) (h : TaskHandle),
      tasks.get id = some h → h.isRunning = true →
      DestroyTask tasks id false =
        (Except.error "cannot destroy running task", tasks)) ∧
    (∀ (tasks : TaskStore) (id : String) (h : TaskHandle) (force : Bool),
      tasks.get id = some h → (h.isRunning = false ∨ force = true) →
      (DestroyTask tasks id force).1 = Except.ok () ∧
      ((DestroyTask tasks id force).2).get id = none) ∧
    (∀ (tasks : TaskStore) (cfg : DriverTaskConfig),
      (StartTask tasks cfg).2.1 = tasks) ∧
    (∀ (env : RecoverEnv) (tasks : TaskStore) (nh : Option NomadTaskHandle)
      (id : String), (tasks.get id).isSome = true →
      (((RecoverTask env tasks nh).2.1).get id).isSome = true) ∧
    (∀ (tasks : TaskStore) (id : String) (se : Option String) (ex : Bool),
      (StopTask tasks id se ex).2 = tasks) ∧
    (∀ (tasks : TaskStore) (id : String), (WaitTask tasks id).2.1 = tasks) ∧
    (∀ (tasks : TaskStore) (id : String), (InspectTask tasks id).2 = tasks) ∧
    (∀ (tasks : TaskStore) (id sig : String),
      (SignalTask tasks id sig).2 = tasks) ∧
    (∀ (tasks : TaskStore) (id : String) (cmd : List String),
      (ExecTask tasks id cmd).2 = tasks) := by
  refine ⟨?_, ?_, ?_, ?_, ?_, ?_, ?_, ?_, ?_, ?_⟩
  · intro tasks id force habs
    simp [DestroyTask, habs]
  · intro tasks id h hid hrun
    simp [DestroyTask, hid, hrun]
  · intro tasks id h force hid hnr
    rcases hnr with hnr | hnr <;>
      simp [DestroyTask, hid, hnr,
        show (TaskStore.get tasks id) = some h from hid] <;>
      simp [TaskStore.get, TaskStore.delete]
  · intro tasks cfg
    unfold StartTask
    split
    · rfl
    · split
      · rfl
      · split <;> rfl
  · exact RecoverTask_preserves
  · intro tasks id se ex
    unfold StopTask
    split
    · rfl
    · match se with
      | some e => simp only; split <;> rfl
      | none => rfl
  · intro tasks id
    unfold WaitTask
    split <;> rfl
  · intro tasks id
    unfold InspectTask
    split <;> rfl
  · intro tasks id sig
    unfold SignalTask
    split <;> rfl
  · intro tasks id cmd
    rfl

/-- Witness for C5 at concrete stores: an absent id, a running task without
force, and a running task destroyed with force. -/
theorem DestroyTask_contract_witness :
    newTaskStore.get "absent" = none ∧
    DestroyTask newTaskStore "absent" false =
      (Except.error ErrTaskNotFound, newTaskStore) ∧
    store1.get "t1" = some h0 ∧
    h0.isRunning = true ∧
    DestroyTask store1 "t1" false =
      (Except.error "cannot destroy running task", store1) ∧
    (DestroyTask store1 "t1" true).1 = Except.ok () ∧
    ((DestroyTask store1 "t1" true).2).get "t1" = none :=
  ⟨rfl,
   DestroyTask_contract.1 newTaskStore "absent" false rfl,
   rfl,
   rfl,
   DestroyTask_contract.2.1 store1 "t1" h0 rfl rfl,
   (DestroyTask_contract.2.2.1 store1 "t1" h0 true rfl (Or.inr rfl)).1,
   (DestroyTask_contract.2.2.1 store1 "t1" h0 true rfl (Or.inr rfl)).2⟩

/-- C6: for a task present in the store, when the executor shutdown call
fails but the plugin client reports the worker already exited, StopTask
returns success (idempotent shutdown, driver.go lines 377-380); when the
shutdown call fails and the worker has not exited, the shutdown error is
surfaced; a successful shutdown returns success. The store is untouched in
every case. -/
theorem StopTask_idempotent_shutdown (tasks : TaskStore) (taskID : String)
    (h : TaskHandle) (hpresent : tasks.get taskID = some h) :
    (∀ e, StopTask tasks taskID (some e) true = (Except.ok (), tasks)) ∧
    (∀ e, StopTask tasks taskID (some e) false =
      (Except.error ("executor Shutdown failed: " ++ e), tasks)) ∧
    (∀ exited, StopTask tasks taskID none exited = (Except.ok (), tasks)) := by
  refine ⟨fun e => ?_, fun e => ?_, fun exited => ?_⟩ <;>
    simp [StopTask, hpresent]

/-- Witness for C6 at a concrete exited task. -/
theorem StopTask_idempotent_shutdown_witness :
    storeExited.get "t1" = some exitedHandle0 ∧
    StopTask storeExited "t1" (some "connection refused") true =
      (Except.ok (), storeExited) ∧
    StopTask storeExited "t1" (some "connection refused") false =
      (Except.error ("executor Shutdown failed: " ++ "connection refused"),
        storeExited) :=
  ⟨rfl,
   (StopTask_idempotent_shutdown storeExited "t1" exitedHandle0 rfl).1
     "connection refused",
   (StopTask_idempotent_shutdown storeExited "t1" exitedHandle0 rfl).2.1
     "connection refused"⟩

/-- C7: when the supervisor's wait-on-worker call itself errors, the
supervisor records the error into exitResult.Err, transitions the handle to
Unknown and sets completedAt to the current time (handle.go lines 78-83);
the TaskStatus snapshot returned by Inspect shows that state and that
exitResult. The supervisor returns at that point: `run` performs this single
terminal transition and nothing re-runs the wait. -/
theorem run_supervision_failure (h : TaskHandle) (e : String) (now : Nat) :
    (h.run (Except.error e) now).procState = TaskState.unknown ∧
    (h.run (Except.error e) now).exitResult.map ExitResult.Err =
      some (some e) ∧
    (h.run (Except.error e) now).completedAt = now ∧
    ((h.run (Except.error e) now).TaskStatus).State = TaskState.unknown ∧
    ((h.run (Except.error e) now).TaskStatus).ExitResult =
      (h.run (Except.error e) now).exitResult ∧
    ((h.run (Except.error e) now).TaskStatus).CompletedAt = now := by
  cases hh : h.exitResult <;>
    simp [TaskHandle.run, TaskHandle.TaskStatus, hh]

/-- C8: StartTask on a descriptor whose id is already in the store always
fails with the already-started error (driver.go lines 224-226), leaves the
store unchanged — so the existing handle is exactly as it was — and starts
no supervisor. -/
theorem StartTask_duplicate_id (tasks : TaskStore) (cfg : DriverTaskConfig)
    (h : TaskHandle) (hid : tasks.get cfg.ID = some h) :
    (StartTask tasks cfg).1 =
      Except.error ("task with ID \"" ++ cfg.ID ++ "\" already started") ∧
    (StartTask tasks cfg).2.1 = tasks ∧
    ((StartTask tasks cfg).2.1).get cfg.ID = some h ∧
    (StartTask tasks cfg).2.2 = false := by
  simp [StartTask, hid]

/-- Witness for C8: starting t1 again over a store already holding t1. -/
theorem StartTask_duplicate_id_witness :
    store1.get cfg0.ID = some h0 ∧
    (StartTask store1 cfg0).1 =
      Except.error ("task with ID \"" ++ cfg0.ID ++ "\" already started") ∧
    (StartTask store1 cfg0).2.1 = store1 ∧
    ((StartTask store1 cfg0).2.1).get cfg0.ID = some h0 ∧
    (StartTask store1 cfg0).2.2 = false :=
  ⟨rfl,
   (StartTask_duplicate_id store1 cfg0 h0 rfl).1,
   (StartTask_duplicate_id store1 cfg0 h0 rfl).2.1,
   (StartTask_duplicate_id store1 cfg0 h0 rfl).2.2.1,
   (StartTask_duplicate_id store1 cfg0 h0 rfl).2.2.2⟩

/-- C9: the fingerprint timer is armed at zero delay for the very first
emission and at the fixed fingerprintPeriod for every subsequent one, so
emissions are spaced exactly fingerprintPeriod apart; the stream emits one
fingerprint per tick until the first cancellation — the caller's or the
driver root's, whichever select observes first — and the channel is closed
exactly when such a cancellation occurs. -/
theorem Fingerprint_timing_and_closure :
    fingerprintTimerDelay 0 = 0 ∧
    (∀ n, fingerprintTimerDelay (n + 1) = fingerprintPeriod) ∧
    fingerprintEmissionTime 0 = 0 ∧
    (∀ n, fingerprintEmissionTime (n + 1) =
      fingerprintEmissionTime n + fingerprintPeriod) ∧
    (∀ evs, (handleFingerprint evs).2 = evs.any (fun e => !e.isTick)) ∧
    (∀ evs, (handleFingerprint evs).1 =
      List.replicate (evs.takeWhile FpEvent.isTick).length buildFingerprint) := by
  refine ⟨rfl, fun n => rfl, rfl, fun n => rfl, fun evs => ?_, fun evs => ?_⟩
  · induction evs with
    | nil => rfl
    | cons e rest ih =>
      cases e <;> simp [handleFingerprint, FpEvent.isTick, ih]
  · induction evs with
    | nil => rfl
    | cons e rest ih =>
      cases e <;>
        simp [handleFingerprint, FpEvent.isTick, ih, List.takeWhile_cons,
          List.replicate]
